import Mathlib

/-!
Verification development for the study-assistant orchestration backend.

The definitions below are a shallow embedding of the Python sources:
`backend/orchestrator.py` and the handler modules under `backend/agents/`.
Python dictionaries are modelled by association lists over an inductive
value type `Val`; Python floats are modelled by rationals; every external
effect (generative-text service, webcam/emotion service, web-search APIs,
the system clock, `random`, and Python's per-process string hashing) is an
explicit parameter gathered in an `Env` record, so each embedded function
is a total Lean function of its inputs and the environment, mirroring the
source's catch-all fallbacks.
-/

namespace StudyAssistant

/-! ## Python string primitives

`pyLower`, `pyStrip`, `pyReplace` and `pyIn` model Python's `str.lower`,
`str.strip()`, `str.replace` (all non-overlapping occurrences, left to
right) and the substring operator `in` for the ASCII strings this code
manipulates. -/

def pyLower (s : String) : String := ⟨s.data.map Char.toLower⟩

def pyStrip (s : String) : String :=
  ⟨((s.data.dropWhile Char.isWhitespace).reverse.dropWhile Char.isWhitespace).reverse⟩

def listReplaceAux : Nat → List Char → List Char → List Char → List Char
  | 0, s, _, _ => s
  | Nat.succ fuel, s, pat, sub =>
    match s with
    | [] => []
    | c :: rest =>
      if pat ≠ [] ∧ pat.isPrefixOf (c :: rest) then
        sub ++ listReplaceAux fuel (List.drop pat.length (c :: rest)) pat sub
      else
        c :: listReplaceAux fuel rest pat sub

def pyReplace (s pat sub : String) : String :=
  ⟨listReplaceAux s.data.length s.data pat.data sub.data⟩

def listContainsSub (pat : List Char) : List Char → Bool
  | [] => pat.isEmpty
  | c :: t => pat.isPrefixOf (c :: t) || listContainsSub pat t

/-- Python's `pat in s` substring test. -/
def pyIn (pat s : String) : Bool := listContainsSub pat.data s.data

/-! ## Python values

`Val` models the dynamically typed Python values the handlers pass around:
strings, floats (as rationals), ints, booleans, lists, dicts (association
lists, insertion-ordered like Python dicts) and `None`. -/

inductive Val where
  | vstr : String → Val
  | vrat : ℚ → Val
  | vint : Int → Val
  | vbool : Bool → Val
  | vlist : List Val → Val
  | vdict : List (String × Val) → Val
  | vnone : Val

mutual

/-- Python's `==` on values, by structural comparison.  Cross-type
comparisons are `False`, as in Python for the value shapes this code
compares. -/
def pyEq : Val → Val → Bool
  | .vstr a, .vstr b => a == b
  | .vrat a, .vrat b => a == b
  | .vint a, .vint b => a == b
  | .vbool a, .vbool b => a == b
  | .vnone, .vnone => true
  | .vlist a, .vlist b => pyEqList a b
  | .vdict a, .vdict b => pyEqDict a b
  | _, _ => false

def pyEqList : List Val → List Val → Bool
  | [], [] => true
  | x :: xs, y :: ys => pyEq x y && pyEqList xs ys
  | _, _ => false

def pyEqDict : List (String × Val) → List (String × Val) → Bool
  | [], [] => true
  | (k, x) :: xs, (k', y) :: ys => k == k' && pyEq x y && pyEqDict xs ys
  | _, _ => false

end

def strInList (s : String) : List String → Bool
  | [] => false
  | t :: r => s == t || strInList s r

/-- Python's `x in [s₁, …, sₙ]` where the list elements are strings. -/
def pyInList (v : Val) (l : List String) : Bool :=
  match v with
  | .vstr s => strInList s l
  | _ => false

/-- Python's `d.get(k, dflt)` on a dict. -/
def dget (d : List (String × Val)) (k : String) (dflt : Val) : Val :=
  match List.lookup k d with
  | some v => v
  | none => dflt

/-- Read a key expected to hold a dict; `d.get(k, {})` followed by dict use. -/
def dgetDict (d : List (String × Val)) (k : String) : List (String × Val) :=
  match dget d k (Val.vdict []) with
  | Val.vdict l => l
  | _ => []

/-- The underlying list of a `vlist`; the call sites only apply it to lists. -/
def Val.asList : Val → List Val
  | .vlist l => l
  | _ => []

/-- The underlying association list of a `vdict`; the call sites only
apply it to dicts. -/
def Val.asDict : Val → List (String × Val)
  | .vdict l => l
  | _ => []

/-- The underlying string of a `vstr`; the call sites only apply it to strings. -/
def Val.asStr : Val → String
  | .vstr s => s
  | _ => ""

/-- The underlying rational of a numeric value (Python float/int contexts). -/
def Val.asRat : Val → ℚ
  | .vrat q => q
  | .vint n => (n : ℚ)
  | _ => 0

/-- Python truthiness, as used in `if x:` and `bool(x)`. -/
def truthy : Val → Bool
  | .vstr s => s ≠ ""
  | .vrat q => q ≠ 0
  | .vint n => n ≠ 0
  | .vbool b => b
  | .vlist l => ¬ l.isEmpty
  | .vdict l => ¬ l.isEmpty
  | .vnone => false

/-! ## Structured sensor inputs

`wellness_agent.py` reads its two optional dict arguments only through
`.get` with defaults and key-membership tests, so they are modelled as
records of optional fields (a missing key and the `.get` default coincide
at every use site). -/

structure HumeData where
  emotion : String
  confidence : ℚ
deriving DecidableEq

structure FacialData where
  emotion : Option String
  fatigue_indicators : List String
  stress_indicators : List String
deriving DecidableEq

structure ActivityData where
  steps_today : Option Int
  active_minutes : Option Int
  calories_burned : Option Int
  heart_rate_variability : Option Int
  last_activity : Option String
deriving DecidableEq

/-! ## External environment

Everything the Python code obtains from outside its own logic — the
generative-text service, webcam emotion analysis, search APIs, the system
clock and `datetime` formatting/arithmetic on clock values, the `random`
module and Python's per-process string hash — is collected here.  A `none`
in an `Option` field is the outcome every corresponding `try/except`
converts into the local fallback.  `random.choice`/`random.choices` draws
are modelled as indices reduced modulo the list length, `random.randint(a, b)`
as `a + r % (b - a + 1)`, and `random.uniform(a, b)` as a clamp of an
arbitrary rational into `[a, b]`. -/

structure Env where
  /-- `datetime.datetime.now().hour` -/
  currentHour : Nat
  /-- Outcome of `_capture_and_analyze_emotion` (`none` = client missing,
  webcam/service failure — all caught in the source). -/
  humeResult : Option HumeData
  /-- `random.choices` draw in `_detect_emotion`'s simulation branch. -/
  emoIdx : Nat
  /-- `random.randint` draws of `_assess_activity`'s simulated data. -/
  simSteps : Nat
  simActiveMinutes : Nat
  simCalories : Nat
  simActIdx : Nat
  /-- Resources gathered by `search_resources_async` (`none` = the whole
  async run raised and `search_resources` fell back to mock resources). -/
  learningGathered : Option (List Val)
  /-- `_analyze_pdf_content`'s Gemini-driven outcome: the first key topic
  and the returned analysis dict (only reached with an attached document,
  which no verified call site passes). -/
  pdfTopic : String
  pdfAnalysisVal : Val
  /-- Whether `generate_quiz`'s async path ran (else bare `except` →
  `_generate_basic_quiz`). -/
  quizAsyncOk : Bool
  /-- Per-question randoms and Gemini outcomes of the async quiz path. -/
  qRand : Nat → Nat
  qTypeIdx : Nat → Nat
  qConceptIdx : Nat → Nat
  qGemini : Nat → Option (List (String × Val))
  /-- Per-question randoms of `_generate_basic_quiz`. -/
  basicQid : Nat → Nat
  basicTypeIdx : Nat → Nat
  basicConceptIdx : Nat → Nat
  /-- `datetime.now()` date (an abstract day number) and the `datetime`
  library's formatting/arithmetic on concrete date-time strings, which the
  schedule agent treats as opaque: `strftime("%Y-%m-%d")` of a day,
  `_calculate_end_time` and `_calculate_end_time_from_datetime`. -/
  day0 : Nat
  fmtDate : Nat → String
  calcEnd : String → String → String → String
  calcEndFromDt : String → String → String
  /-- `random` draws of `_create_mock_profile`. -/
  styleIdx : Nat
  paceIdx : Nat
  challengeIdx : Nat
  prefTimeIdx : Nat
  sessionRand : Nat
  breakRand : Nat
  weakIdx : Nat → Nat
  strengthIdx : Nat → Nat
  motivLevel : ℚ
  confLevel : ℚ
  stressTol : ℚ
  avgScore : ℚ
  improvRate : ℚ
  consistScore : ℚ
  /-- `random.choice` draws of the motivation agent. -/
  affIdx : Nat
  primMsgIdx : Nat
  longTermIdx : Nat
  actionIdx : Nat
  celebIdx : Nat
  goalIdx : Nat
  /-- Parsed JSON object returned by the Gemini classification call in
  `_analyze_user_input` (`none` = service error, empty response or a
  `json.loads` failure, all absorbed by the bare `except`).  A successful
  parse of a non-object JSON value is outside this shape; see the comment
  at `analyzeFallback`. -/
  analysisResult : Option (List (String × Val))
  /-- Python's per-process-randomized `hash` on strings. -/
  pyHash : String → Nat

/-! ## Wellness agent (`backend/agents/wellness_agent.py`) -/

/-- The `min(1.0, max(0.0, _))` clamp ending both level calculations. -/
def clamp01 (q : ℚ) : ℚ := min 1 (max 0 q)

/-- `WellnessAgent._calculate_fatigue`.  The sums of float literals are
modelled over `ℚ`; the final clamp `min(1.0, max(0.0, _))` is the source's
last line. -/
def calculateFatigue (currentHour : Nat) (facial_data : Option FacialData)
    (activity_data : Option ActivityData) (hume_data : Option HumeData) : ℚ :=
  let base0 : ℚ := 3/10
  let base1 :=
    if 22 ≤ currentHour ∨ currentHour ≤ 6 then base0 + 4/10
    else if 18 ≤ currentHour ∧ currentHour ≤ 21 then base0 + 2/10
    else base0
  let base2 :=
    match hume_data with
    | some hd =>
      if hd.confidence > 6/10 then
        let emotion := pyLower hd.emotion
        if emotion ∈ ["tired", "sleepy", "boredom", "disengaged"] then base1 + 4/10
        else if emotion ∈ ["focused", "determined", "curious"] then base1 - 2/10
        else if emotion ∈ ["frustrated", "irritated"] then base1 + 3/10
        else base1
      else base1
    | none => base1
  let base3 :=
    match facial_data with
    | some fd =>
      let b := if fd.fatigue_indicators.contains "tired_eyes" then base2 + 3/10 else base2
      if fd.fatigue_indicators.contains "yawning" then b + 2/10 else b
    | none => base2
  let base4 :=
    match activity_data with
    | some ad => if ad.steps_today.getD 5000 < 3000 then base3 + 2/10 else base3
    | none => base3
  clamp01 base4

/-- `WellnessAgent._calculate_stress`; the `any(e in emotion for e in …)`
generator expressions are substring tests. -/
def calculateStress (facial_data : Option FacialData)
    (activity_data : Option ActivityData) (hume_data : Option HumeData) : ℚ :=
  let base0 : ℚ := 2/10
  let base1 :=
    match hume_data with
    | some hd =>
      if hd.confidence > 6/10 then
        let emotion := pyLower hd.emotion
        let b :=
          if (["anxiety", "fear", "anger", "frustration", "irritation", "stress"].any
              fun e => pyIn e emotion) then base0 + 4/10
          else base0
        if (["contentment", "relaxation", "satisfaction", "peace"].any
            fun e => pyIn e emotion) then b - 2/10
        else b
      else base0
    | none => base0
  let base2 :=
    match facial_data with
    | some fd =>
      let b := if fd.stress_indicators.contains "frown" then base1 + 3/10 else base1
      if fd.stress_indicators.contains "tense_jaw" then b + 2/10 else b
    | none => base1
  let base3 :=
    match activity_data with
    | some ad =>
      let hrv := ad.heart_rate_variability.getD 50
      if hrv < 30 then base2 + 3/10
      else if hrv > 70 then base2 - 2/10
      else base2
    | none => base2
  clamp01 base3

/-- The time-adjusted simulated draw at the end of
`WellnessAgent._detect_emotion` (`random.choices` over six emotions). -/
def detectEmotionSim (env : Env) : String :=
  let base_emotions :=
    if 22 ≤ env.currentHour ∨ env.currentHour ≤ 6 then
      ["tired", "focused", "neutral", "confused", "stressed", "happy"]
    else
      ["focused", "confused", "tired", "stressed", "neutral", "happy"]
  base_emotions.getD (env.emoIdx % 6) "focused"

/-- `WellnessAgent._detect_emotion`. -/
def detectEmotion (env : Env) (hume_data : Option HumeData)
    (legacy_facial_data : Option FacialData) : String :=
  let legacy :=
    match legacy_facial_data with
    | some fd =>
      match fd.emotion with
      | some e => e
      | none => detectEmotionSim env
    | none => detectEmotionSim env
  match hume_data with
  | some hd => if hd.confidence > 7/10 then hd.emotion else legacy
  | none => legacy

/-- `WellnessAgent._assess_activity`. -/
def assessActivity (env : Env) (activity_data : Option ActivityData) :
    List (String × Val) :=
  match activity_data with
  | some ad =>
    [("steps_today", Val.vint (ad.steps_today.getD 5000)),
     ("active_minutes", Val.vint (ad.active_minutes.getD 45)),
     ("calories_burned", Val.vint (ad.calories_burned.getD 1800)),
     ("last_activity", Val.vstr (ad.last_activity.getD "walking"))]
  | none =>
    [("steps_today", Val.vint (Int.ofNat (3000 + env.simSteps % 5001))),
     ("active_minutes", Val.vint (Int.ofNat (20 + env.simActiveMinutes % 71))),
     ("calories_burned", Val.vint (Int.ofNat (1500 + env.simCalories % 701))),
     ("last_activity",
      Val.vstr (["walking", "running", "cycling", "sitting"].getD (env.simActIdx % 4) "walking"))]

/-- Stand-in for Python's `f"{x:.1f}"`: one-decimal rendering of the
(rational-modelled) float.  Exact IEEE-754 decimal formatting is outside
this embedding; no verified property depends on this string. -/
def fmtRat1 (q : ℚ) : String :=
  let n : Int := (q * 10 + 1/2).floor
  toString (n / 10) ++ "." ++ toString (n % 10).natAbs

/-- A recommendation dict literal of `_generate_recommendations`. -/
def recDict (ty pr title desc dur ben : String) : Val :=
  Val.vdict [("type", Val.vstr ty), ("priority", Val.vstr pr),
    ("title", Val.vstr title), ("description", Val.vstr desc),
    ("duration", Val.vstr dur), ("benefits", Val.vstr ben)]

/-- `WellnessAgent._generate_recommendations`, reading the already computed
fatigue, stress, emotion and Hume fields of the report under construction.

When the Hume capture produced no data, `wellness_report["hume_emotion_data"]`
is `None` with the key *present*, so `wellness_report.get("hume_emotion_data", {})`
returns `None` (not the `{}` default), and the unconditional
`hume_data.get("confidence", 0)` in the "AI confidence indicator" block
raises `AttributeError` — nothing in the wellness agent catches it.  That
failure is the `none` branch of the result. -/
def generateRecommendations (fatigue stress : ℚ) (emotion : String)
    (hume_data : Option HumeData) : Option (List Val) :=
  let l1 : List Val :=
    if fatigue > 7/10 then
      [recDict "rest" "high" "Immediate Rest Break"
        "Emotion analysis shows signs of high fatigue. Take a 15-minute break with deep breathing."
        "15 minutes" "Reduces mental fatigue and improves focus"]
    else []
  let l2 :=
    if stress > 6/10 ∨ emotion ∈ ["anxious", "stressed", "frustrated"] then
      l1 ++ [recDict "mindfulness" "medium" "Emotion-Focused Stress Management"
        ("Analysis shows you\x27re feeling " ++ emotion ++ ". Try progressive muscle relaxation or short meditation.")
        "10 minutes" "Lowers cortisol levels and improves concentration"]
    else l1
  let l3 :=
    if emotion = "confused" then
      l2 ++ [recDict "study_technique" "low" "Change Study Approach"
        "Your facial expressions suggest confusion. Try a different explanation or take short breaks."
        "N/A" "Improves understanding and reduces frustration"]
    else l2
  let l4 :=
    if emotion ∈ ["tired", "sleepy"] then
      l3 ++ [recDict "hydration_nutrition" "medium" "Energy Boost Check"
        "Drink water, have a healthy snack, and consider a 5-minute walk."
        "5 minutes" "Increases alertness and cognitive function"]
    else l3
  let l5 :=
    if emotion ∈ ["happy", "excited", "focused"] then
      l4 ++ [recDict "motivation" "low" "Ride the Momentum"
        ("Great to see you\x27re feeling " ++ emotion ++ "! Use this positive state to tackle challenging materials.")
        "N/A" "Optimizes learning during peak emotional states"]
    else l4
  match hume_data with
  | none => none
  | some hd =>
    let confidence := hd.confidence
    let l6 :=
      if confidence > 8/10 then
        l5 ++ [recDict "ai_insight" "low" "AI Emotion Analysis"
          ("High confidence emotion detection enabled. Current state: " ++ emotion ++
            " (" ++ fmtRat1 confidence ++ " confidence).")
          "N/A" "Personalized learning based on real emotional state"]
      else l5
    some (l6.take 3)

/-- A break dict literal of `_suggest_breaks`. -/
def breakDict (timing dur activity purpose : String) : Val :=
  Val.vdict [("timing", Val.vstr timing), ("duration", Val.vstr dur),
    ("activity", Val.vstr activity), ("purpose", Val.vstr purpose)]

/-- `WellnessAgent._suggest_breaks`. -/
def suggestBreaks (fatigue stress : ℚ) (emotion : String) : List Val :=
  let l1 : List Val :=
    if fatigue > 5/10 ∨ emotion ∈ ["tired", "boredom"] then
      [breakDict "every_45_minutes" "10 minutes" "mindfulness_meditation" "combat_fatigue"]
    else []
  let l2 :=
    if stress > 5/10 ∨ emotion ∈ ["anxious", "frustrated", "stressed"] then
      l1 ++ [breakDict "every_75_minutes" "5 minutes" "deep_breathing" "reduce_stress"]
    else l1
  let l3 :=
    if emotion = "confused" then
      l2 ++ [breakDict "every_90_minutes" "10 minutes" "concept_review" "clarify_confusion"]
    else l2
  let l4 := l3 ++ [breakDict "every_60_minutes" "5 minutes" "eye_rest_walk" "general_wellness"]
  l4.take 3

/-- `WellnessAgent.assess_wellness` and the module helper
`get_wellness_assessment`.  `hume_emotion_data` comes from the environment
(`none` whenever the capture was skipped — Hume client or cv2 missing —
or the capture call itself raised and was caught); the
`recommendations`/`wellness_breaks` keys are initialised and immediately
overwritten in the source, so the dict is built with their final values.

The function is *not* total: when `hume_emotion_data` is `None` the
`_generate_recommendations` call raises `AttributeError` (see
`generateRecommendations`), which `assess_wellness` and
`get_wellness_assessment` do not catch — the `none` result. -/
def getWellnessAssessment (env : Env) (facial_data : Option FacialData)
    (activity_data : Option ActivityData) : Option (List (String × Val)) :=
  let hume_emotion_data := env.humeResult
  let fatigue := calculateFatigue env.currentHour facial_data activity_data hume_emotion_data
  let stress := calculateStress facial_data activity_data hume_emotion_data
  let emotion := detectEmotion env hume_emotion_data facial_data
  (generateRecommendations fatigue stress emotion hume_emotion_data).map
    fun recommendations =>
      [("fatigue_level", Val.vrat fatigue),
       ("stress_level", Val.vrat stress),
       ("emotional_state", Val.vstr emotion),
       ("activity_level", Val.vdict (assessActivity env activity_data)),
       ("hume_emotion_data",
        match hume_emotion_data with
        | some hd => Val.vdict [("emotion", Val.vstr hd.emotion),
                                ("confidence", Val.vrat hd.confidence)]
        | none => Val.vnone),
       ("recommendations", Val.vlist recommendations),
       ("wellness_breaks", Val.vlist (suggestBreaks fatigue stress emotion))]

/-! ## Learning resource agent (`backend/agents/learning_agent.py`) -/

/-- `LearningResourceAgent._estimate_difficulty` (the `resources` argument
is unused in the source as well). -/
def estimateDifficulty (topic : String) (resources : List Val) : String :=
  let topic_lower := pyLower topic
  if (["machine learning", "deep learning", "quantum computing", "advanced algorithms"].any
      fun t => pyIn t topic_lower) then "advanced"
  else if (["html", "css", "basic programming", "introduction"].any
      fun t => pyIn t topic_lower) then "beginner"
  else "intermediate"

/-- `LearningResourceAgent._estimate_study_time`. -/
def estimateStudyTime (resources : List Val) : Nat :=
  let base_time := resources.foldl
    (fun acc r =>
      let ty := (dget r.asDict "type" Val.vnone).asStr
      if ty = "video" then acc + 1
      else if ty = "book" then acc + 3
      else if ty = "article" then acc + 1
      else acc)
    2
  min base_time 8

/-- `LearningResourceAgent._get_mock_resources`. -/
def getMockResources (topic : String) : List (String × Val) :=
  [("resources", Val.vlist
     [Val.vdict [("title", Val.vstr ("Introduction to " ++ topic)),
        ("platform", Val.vstr "GeeksforGeeks"), ("type", Val.vstr "article"),
        ("url", Val.vstr "https://www.geeksforgeeks.org/"),
        ("description", Val.vstr ("Comprehensive guide to " ++ topic))],
      Val.vdict [("title", Val.vstr (topic ++ " Tutorial")),
        ("platform", Val.vstr "YouTube"), ("type", Val.vstr "video"),
        ("url", Val.vstr "https://youtube.com/"),
        ("description", Val.vstr ("Video tutorial on " ++ topic))]]),
   ("difficulty", Val.vstr "beginner"),
   ("estimated_time", Val.vstr "2 hours")]

/-- `LearningResourceAgent.search_resources` and the module helper
`get_learning_resources`.  `env.learningGathered` is the resource list the
async run produced (each platform search already degrades internally to
`[]` or canned suggestions, so an arbitrary list covers those paths);
`none` means the async run itself raised and the bare `except` fell back
to `_get_mock_resources`. -/
def getLearningResources (env : Env) (topic : String) (pdf_content : Option String) :
    List (String × Val) :=
  match env.learningGathered with
  | some gathered =>
    let topic1 := match pdf_content with | some _ => env.pdfTopic | none => topic
    [("resources", Val.vlist (gathered.take 5)),
     ("difficulty", Val.vstr (estimateDifficulty topic1 gathered)),
     ("estimated_time", Val.vstr (toString (estimateStudyTime gathered) ++ " hours")),
     ("pdf_analysis",
      match pdf_content with | some _ => env.pdfAnalysisVal | none => Val.vnone)]
  | none => getMockResources topic

/-! ## Assessment agent (`backend/agents/assessment_agent.py`) -/

/-- `AssessmentAgent._extract_concepts`.  The `fallback_concepts` dict is
scanned in insertion order and the scan stops at the first key contained
in the lowered topic. -/
def extractConcepts (resources : List Val) (topic : String) : List String :=
  let topic_lower := pyLower topic
  let concepts : List String :=
    if pyIn "machine learning" topic_lower then
      ["supervised learning", "unsupervised learning", "reinforcement learning",
       "neural networks", "decision trees", "support vector machines",
       "regression", "classification", "clustering", "gradient descent"]
    else if pyIn "data science" topic_lower then
      ["data cleaning", "feature engineering", "model evaluation",
       "cross-validation", "overfitting", "bias-variance tradeoff"]
    else if pyIn "deep learning" topic_lower then
      ["convolutional neural networks", "recurrent neural networks",
       "transformers", "backpropagation", "activation functions"]
    else []
  let concepts :=
    if concepts.isEmpty then
      ["algorithms", "data structures", "problem solving", "analysis", "optimization"]
    else concepts
  concepts.take 10

/-- `AssessmentAgent._choose_question_type` (`random.choice` as a modular
index into the per-difficulty list). -/
def chooseQuestionType (difficulty : String) (idx : Nat) : String :=
  let types : List String :=
    if difficulty = "beginner" then ["multiple_choice", "true_false", "multiple_choice"]
    else if difficulty = "intermediate" then ["multiple_choice", "fill_blank", "true_false"]
    else ["fill_blank", "multiple_choice", "true_false", "fill_blank"]
  types.getD (idx % types.length) "multiple_choice"

/-- One loop iteration of `AssessmentAgent._generate_basic_quiz`. -/
def basicQuizQuestion (env : Env) (topic : String) (concepts : List String)
    (difficulty : String) (i : Nat) : Val :=
  let concept :=
    if concepts.isEmpty then "programming"
    else concepts.getD (env.basicConceptIdx i % concepts.length) "programming"
  let question_type := chooseQuestionType difficulty (env.basicTypeIdx i)
  let qid := "q_" ++ toString (1000 + env.basicQid i % 9000)
  if question_type = "multiple_choice" then
    Val.vdict [("id", Val.vstr qid), ("type", Val.vstr "multiple_choice"),
      ("topic", Val.vstr topic),
      ("question", Val.vstr ("What is " ++ concept ++ "?")),
      ("options", Val.vlist [Val.vstr "Option A", Val.vstr "Option B",
        Val.vstr concept, Val.vstr "Option D"]),
      ("correct_answer", Val.vint 2),
      ("explanation", Val.vstr (concept ++ " is a key concept."))]
  else
    Val.vdict [("id", Val.vstr qid), ("type", Val.vstr question_type),
      ("topic", Val.vstr topic),
      ("question", Val.vstr (concept ++ " is important in programming.")),
      ("correct_answer", Val.vbool true),
      ("explanation", Val.vstr "This is a basic concept.")]

/-- `AssessmentAgent._generate_basic_quiz`. -/
def generateBasicQuiz (env : Env) (topic : String) (learning_data : List (String × Val))
    (num_questions : Nat) : List (String × Val) :=
  let concepts := extractConcepts (dget learning_data "resources" (Val.vlist [])).asList topic
  let difficulty := dget learning_data "difficulty" (Val.vstr "intermediate")
  let questions := (List.range num_questions).map
    (basicQuizQuestion env topic concepts difficulty.asStr)
  [("topic", Val.vstr topic),
   ("difficulty", difficulty),
   ("questions", Val.vlist questions),
   ("total_questions", Val.vint (Int.ofNat num_questions)),
   ("estimated_time", Val.vstr (toString (num_questions * 2) ++ " minutes"))]

/-- Fallback bodies of `_create_mc_question` / `_create_tf_question` /
`_create_fb_question`. -/
def mcFallback (concept : String) : List (String × Val) :=
  [("question", Val.vstr ("What is the primary purpose of " ++ concept ++ "?")),
   ("options", Val.vlist [Val.vstr "Option A", Val.vstr "Option B",
     Val.vstr concept, Val.vstr "Option D"]),
   ("correct_answer", Val.vint 2),
   ("explanation", Val.vstr (concept ++ " is a fundamental concept in this topic."))]

def tfFallback (concept : String) : List (String × Val) :=
  [("question", Val.vstr (concept ++ " is a fundamental concept in computer science.")),
   ("correct_answer", Val.vbool true),
   ("explanation", Val.vstr ("This statement about " ++ concept ++ " is correct."))]

def fbFallback (concept : String) : List (String × Val) :=
  [("question", Val.vstr (concept ++ " is a technique used to _____.")),
   ("correct_answer", Val.vstr "solve computational problems"),
   ("explanation", Val.vstr (concept ++ " is designed to solve computational problems."))]

/-- `AssessmentAgent._create_question_async`.  `env.qGemini i` is the
type-shaped body extracted from a successfully parsed Gemini reply; `none`
covers every caught service/parse failure, producing the deterministic
per-type fallback body. -/
def createQuestionAsync (env : Env) (topic difficulty : String)
    (concepts : List String) (i : Nat) : Val :=
  let question_type := chooseQuestionType difficulty (env.qTypeIdx i)
  let concept := concepts.getD (env.qConceptIdx i % concepts.length) "programming"
  let body :=
    match env.qGemini i with
    | some d => d
    | none =>
      if question_type = "multiple_choice" then mcFallback concept
      else if question_type = "true_false" then tfFallback concept
      else fbFallback concept
  Val.vdict ([("id", Val.vstr ("q_" ++ toString (1000 + env.qRand i % 9000))),
    ("type", Val.vstr question_type), ("topic", Val.vstr topic)] ++ body)

/-- `AssessmentAgent._generate_quiz_async` (the `questions` key is filled
in place after `asyncio.gather`, preserving insertion order). -/
def generateQuizAsync (env : Env) (topic : String) (learning_data : List (String × Val))
    (num_questions : Nat) : List (String × Val) :=
  let resources := (dget learning_data "resources" (Val.vlist [])).asList
  let difficulty := dget learning_data "difficulty" (Val.vstr "intermediate")
  let concepts := extractConcepts resources topic
  [("topic", Val.vstr topic),
   ("difficulty", difficulty),
   ("questions", Val.vlist ((List.range num_questions).map
     (createQuestionAsync env topic difficulty.asStr concepts))),
   ("total_questions", Val.vint (Int.ofNat num_questions)),
   ("estimated_time", Val.vstr (toString (num_questions * 2) ++ " minutes"))]

/-- `AssessmentAgent.generate_quiz` and the module helper `generate_quiz`:
run the async path if the event-loop bridging succeeded, else the bare
`except` falls back to `_generate_basic_quiz`. -/
def generateQuiz (env : Env) (topic : String) (learning_data : List (String × Val))
    (num_questions : Nat) : List (String × Val) :=
  if env.quizAsyncOk then generateQuizAsync env topic learning_data num_questions
  else generateBasicQuiz env topic learning_data num_questions

/-- Python's whitespace `str.split()` (runs of whitespace, empties
dropped). -/
def splitWs (s : String) : List String :=
  (s.split Char.isWhitespace).filter (fun t => ¬ t.isEmpty)

/-- `float(tok)` for the unsigned decimal tokens this system produces. -/
def parseDecimal (s : String) : Option ℚ :=
  match s.split (fun c => c = '.') with
  | [w] => (w.toNat?).map (fun n => (n : ℚ))
  | [w, f] =>
    match w.toNat?, f.toNat? with
    | some a, some b => some ((a : ℚ) + (b : ℚ) / ((10 : ℚ) ^ f.length))
    | _, _ => none
  | _ => none

/-- The `try: total_hours = float(estimated_time.split()[0]) except: 2.0`
prelude of `create_study_plan`. -/
def parseTotalHours (estimated_time : String) : ℚ :=
  match (splitWs estimated_time).head? with
  | some tok => (parseDecimal tok).getD 2
  | none => 2

/-- Stand-in for Python's `str(float)` (e.g. `"2.0"`); no verified property
depends on this rendering. -/
def pyFloatRepr (q : ℚ) : String :=
  if q.den = 1 then toString q.num ++ ".0" else fmtRat1 q

/-- `ScheduleAgent._get_session_activities` (the `topic` argument is unused
in the source as well). -/
def getSessionActivities (topic : String) (session_num total_sessions : Nat) : List Val :=
  if session_num = 0 then
    [Val.vstr "Review fundamental concepts",
     Val.vstr "Watch introductory video",
     Val.vstr "Take notes on key terms"]
  else if session_num = total_sessions - 1 then
    [Val.vstr "Review all learned concepts",
     Val.vstr "Practice with example problems",
     Val.vstr "Self-assessment quiz"]
  else
    [Val.vstr "Deep dive into specific topic areas",
     Val.vstr "Practical exercises and examples",
     Val.vstr "Review previous session material"]

/-- `ScheduleAgent._create_sessions`.  `current_date` starts at today
09:00 and advances one whole day per session, so `strftime("%H:%M")` is
the constant `"09:00"` and the date is day `env.day0 + i` rendered by the
(environment-modelled) `strftime("%Y-%m-%d")`. -/
def createSessions (env : Env) (topic : String) (resources : List Val)
    (total_hours : ℚ) (difficulty : String) : List Val :=
  let session_duration : ℚ :=
    if difficulty = "beginner" then 1
    else if difficulty = "intermediate" then 3/2
    else 2
  let num_sessions := max 1 (total_hours / session_duration).floor.toNat
  let hours_per_session := total_hours / (num_sessions : ℚ)
  (List.range num_sessions).map fun i =>
    let session_resources :=
      if resources.isEmpty then Val.vdict []
      else resources.getD (i % resources.length) (Val.vdict [])
    Val.vdict [("session_id", Val.vstr ("session_" ++ toString (i + 1))),
      ("date", Val.vstr (env.fmtDate (env.day0 + i))),
      ("time", Val.vstr "09:00"),
      ("duration", Val.vstr (fmtRat1 hours_per_session ++ " hours")),
      ("topic", Val.vstr (topic ++ " - Part " ++ toString (i + 1))),
      ("resources", Val.vlist [session_resources]),
      ("activities", Val.vlist (getSessionActivities topic i num_sessions))]

/-- `ScheduleAgent._add_wellness_breaks` (assigning a new dict key appends
it, preserving the existing order). -/
def addWellnessBreaks (sessions : List Val) (wellness_data : List (String × Val)) :
    List Val :=
  let fatigue_level := (dget wellness_data "fatigue_level" (Val.vint 0)).asRat
  sessions.map fun s =>
    if fatigue_level > 7/10 then
      Val.vdict (s.asDict ++ [("wellness_break", Val.vdict
        [("duration", Val.vstr "10 minutes"),
         ("activity", Val.vstr "Mindfulness meditation"),
         ("reason", Val.vstr "High fatigue detected - mental health break needed")])])
    else if fatigue_level > 5/10 then
      Val.vdict (s.asDict ++ [("wellness_break", Val.vdict
        [("duration", Val.vstr "5 minutes"),
         ("activity", Val.vstr "Quick stretch break"),
         ("reason", Val.vstr "Medium fatigue - physical break recommended")])])
    else s

/-- `ScheduleAgent._generate_calendar_events`; the `datetime` end-time
arithmetic (`_calculate_end_time`, `_calculate_end_time_from_datetime`)
operates on clock-derived strings and is modelled by the environment
functions `calcEnd` / `calcEndFromDt`. -/
def generateCalendarEvents (env : Env) (sessions : List Val) : List Val :=
  sessions.foldl
    (fun acc s =>
      let d := s.asDict
      let date := (dget d "date" Val.vnone).asStr
      let time := (dget d "time" Val.vnone).asStr
      let dur := (dget d "duration" Val.vnone).asStr
      let stopic := (dget d "topic" Val.vnone).asStr
      let event := Val.vdict
        [("summary", Val.vstr ("Study Session: " ++ stopic)),
         ("description", Val.vstr ("Study " ++ stopic ++ " for " ++ dur)),
         ("start", Val.vdict [("dateTime", Val.vstr (date ++ "T" ++ time ++ ":00")),
           ("timeZone", Val.vstr "UTC")]),
         ("end", Val.vdict [("dateTime", Val.vstr (env.calcEnd date time dur)),
           ("timeZone", Val.vstr "UTC")]),
         ("reminders", Val.vdict [("useDefault", Val.vbool false),
           ("overrides", Val.vlist [Val.vdict [("method", Val.vstr "popup"),
             ("minutes", Val.vint 15)]])])]
      let acc1 := acc ++ [event]
      match List.lookup "wellness_break" d with
      | some wb =>
        let wbd := wb.asDict
        let break_duration := ((splitWs (dget wbd "duration" Val.vnone).asStr).head?).getD ""
        let break_start := env.calcEnd date time "1 hours"
        acc1 ++ [Val.vdict
          [("summary", Val.vstr ("Wellness Break: " ++ (dget wbd "activity" Val.vnone).asStr)),
           ("description", dget wbd "reason" Val.vnone),
           ("start", Val.vdict [("dateTime", Val.vstr break_start),
             ("timeZone", Val.vstr "UTC")]),
           ("end", Val.vdict [("dateTime",
             Val.vstr (env.calcEndFromDt break_start (break_duration ++ " minutes"))),
             ("timeZone", Val.vstr "UTC")])]]
      | none => acc1)
    []

/-- The session-list computation of `ScheduleAgent.create_study_plan`
(its first half: read the resource bundle, parse the estimated time,
create the sessions and conditionally add wellness breaks). -/
def studyPlanSessions (env : Env) (topic : String) (learning_data : List (String × Val))
    (wellness_data : Option (List (String × Val))) : List Val :=
  let resources := (dget learning_data "resources" (Val.vlist [])).asList
  let difficulty := dget learning_data "difficulty" (Val.vstr "intermediate")
  let estimated_time := (dget learning_data "estimated_time" (Val.vstr "2 hours")).asStr
  let total_hours := parseTotalHours estimated_time
  let sessions0 := createSessions env topic resources total_hours difficulty.asStr
  match wellness_data with
  | some wd =>
    if (dget wd "fatigue_level" (Val.vint 0)).asRat > 5/10 then
      addWellnessBreaks sessions0 wd
    else sessions0
  | none => sessions0

/-- `ScheduleAgent.create_study_plan` with `create_google_events=False`
(as the module helper `get_study_plan` calls it), so
`google_calendar_result` is `None`.  Note the returned dict nests the
`sessions`/`total_duration`/`topic` fields under the `"study_plan"` key
and exposes `"calendar_events"` and `"google_calendar_result"` at top
level. -/
def createStudyPlan (env : Env) (topic : String) (learning_data : List (String × Val))
    (wellness_data : Option (List (String × Val))) : List (String × Val) :=
  let difficulty := dget learning_data "difficulty" (Val.vstr "intermediate")
  let estimated_time := (dget learning_data "estimated_time" (Val.vstr "2 hours")).asStr
  let total_hours := parseTotalHours estimated_time
  let sessions := studyPlanSessions env topic learning_data wellness_data
  let calendar_events := generateCalendarEvents env sessions
  [("study_plan", Val.vdict
     [("topic", Val.vstr topic),
      ("total_duration", Val.vstr (pyFloatRepr total_hours ++ " hours")),
      ("difficulty", difficulty),
      ("sessions", Val.vlist sessions)]),
   ("calendar_events", Val.vlist calendar_events),
   ("google_calendar_result", Val.vnone)]

/-- Module helper `get_study_plan`. -/
def getStudyPlan (env : Env) (topic : String) (learning_data : List (String × Val))
    (wellness_data : Option (List (String × Val))) : List (String × Val) :=
  createStudyPlan env topic learning_data wellness_data

/-! ## Motivation agent (`backend/agents/motivation_agent.py`) -/

/-- The underlying integer of a numeric value (Python int contexts). -/
def Val.asInt : Val → Int
  | .vint n => n
  | .vrat q => q.floor
  | _ => 0

/-- `MotivationAgent.affirmations`. -/
def affirmations : List String :=
  ["You\x27re capable of amazing things when you put your mind to it.",
   "Every expert was once a beginner. You\x27re right where you need to be.",
   "Your brain is getting stronger with every concept you learn.",
   "Mistakes are proof that you\x27re trying - that\x27s something to be proud of!",
   "You\x27re building knowledge that will serve you for the rest of your life.",
   "Learning is a journey, not a race. Celebrate your progress.",
   "You have the power to master this material, one step at a time.",
   "Your dedication to learning sets you apart from the crowd."]

/-- `MotivationAgent.encouraging_messages` with the
`.get(performance_level, …["good_performance"])` default applied. -/
def encouragingMessages (performance_level : String) : List String :=
  if performance_level = "excellent_performance" then
    ["Outstanding work! You\x27re mastering this material brilliantly.",
     "Exceptional performance! Keep up this incredible momentum.",
     "You\x27re absolutely crushing it! This level of understanding is impressive."]
  else if performance_level = "needs_improvement" then
    ["Keep pushing forward! Every expert has faced challenges like this.",
     "You\x27re building resilience with every attempt. That\x27s valuable too!",
     "Learning takes time. You\x27re getting stronger every day."]
  else if performance_level = "struggling" then
    ["Remember: every journey has difficult stretches. You\x27ve got this!",
     "Take a moment to breathe. You\x27re capable of more than you know.",
     "This challenge is shaping you into an even stronger learner."]
  else
    ["Great job! You\x27re building a solid foundation.",
     "Well done! Your hard work is paying off.",
     "Nice work! You\x27re making excellent progress."]

/-- `MotivationAgent._get_primary_message`. -/
def getPrimaryMessage (env : Env) (performance_level emotional_state : String) : String :=
  let messages := encouragingMessages performance_level
  let messages :=
    if emotional_state = "tired" then
      messages.map fun m => m ++ " Remember to take care of yourself too!"
    else if emotional_state = "stressed" then
      messages.map fun m => m ++ " Take a deep breath - you\x27ve got this!"
    else if emotional_state = "confused" then
      ["You\x27re making progress even when it doesn\x27t feel like it!"]
    else if emotional_state = "focused" then
      messages.map fun m => m ++ " Your concentration is paying off!"
    else messages
  messages.getD (env.primMsgIdx % messages.length) ""

/-- `MotivationAgent._get_specific_action`. -/
def getSpecificAction (env : Env) (performance_level emotional_state : String) : String :=
  let actions : List String :=
    if performance_level ∈ ["needs_improvement", "struggling"] then
      ["Break this into smaller, manageable steps.",
       "Try teaching this concept to someone else (real or imaginary).",
       "Compare your current understanding to where you were a week ago.",
       "Focus on understanding one key concept deeply rather than rushing through many."]
    else
      ["Build on this success by tackling a related challenge.",
       "Share what you\x27ve learned with someone - teaching reinforces learning.",
       "Reflect on what strategies helped you succeed here.",
       "Set a small reward for reaching your next milestone."]
  let actions :=
    if emotional_state = "tired" then
      actions ++ ["Take a 5-minute walk or stretch break to recharge."]
    else if emotional_state = "stressed" then
      actions ++ ["Try the 4-7-8 breathing technique: inhale for 4, hold for 7, exhale for 8."]
    else if emotional_state = "confused" then
      actions ++ ["Step away briefly, then come back with fresh eyes."]
    else if emotional_state = "happy" then
      actions ++ ["Ride this positive momentum to tackle the next challenge!"]
    else actions
  actions.getD (env.actionIdx % actions.length) ""

/-- `MotivationAgent._generate_encouragement` (the dict is initialised with
empty strings and each key immediately overwritten, so it is built here
with the final values in the same key order). -/
def generateEncouragement (env : Env) (performance_level emotional_state : String) :
    List (String × Val) :=
  let immediate :=
    if performance_level = "excellent_performance" then
      "You\x27re excelling in ways that matter!"
    else if performance_level = "needs_improvement" then
      "This is hard, and that\x27s okay. Hard things make us grow."
    else "You\x27re making meaningful progress every day."
  let long_term_choices :=
    ["Remember why you started. That passion brought you here.",
     "The skills you\x27re building now will open incredible doors.",
     "Every concept you master increases your capabilities exponentially.",
     "You\x27re developing mental resilience that lasts a lifetime.",
     "Knowledge compounds over time - you\x27re investing in your future self."]
  [("immediate", Val.vstr immediate),
   ("long_term", Val.vstr (long_term_choices.getD (env.longTermIdx % 5) "")),
   ("specific_action", Val.vstr (getSpecificAction env performance_level emotional_state))]

/-- `MotivationAgent._celebrate_progress`. -/
def celebrateProgress (env : Env) (context : List (String × Val)) : String :=
  let m1 : List String :=
    if truthy (dget context "progress_milestone" Val.vnone) then
      ["🎉 Milestone achieved! You\x27ve grown so much!",
       "🌟 Progress celebration! Pat yourself on the back!",
       "⭐ Achievement unlocked! You\x27re making real progress!",
       "🏆 Goal reached! You deserve to feel proud of this!"]
    else []
  let days : Int := (dget context "days_studied" (Val.vint 0)).asInt
  let m2 :=
    if days > 0 then
      if days % 7 = 0 then
        m1 ++ ["📅 Week " ++ toString (days / 7) ++ " complete! Consistency is your superpower!"]
      else if days = 1 ∨ days = 7 ∨ days = 30 then
        m1 ++ ["🎯 " ++ toString days ++ " day" ++ (if days ≠ 1 then "s" else "") ++
          " of consistent learning! That\x27s commitment!"]
      else m1
    else m1
  let topics : Int := (dget context "topics_mastered" (Val.vint 0)).asInt
  let m3 :=
    if topics > 0 then
      m2 ++ ["🧠 " ++ toString topics ++ " topic" ++ (if topics ≠ 1 then "s" else "") ++
        " mastered! Your knowledge is growing!"]
    else m2
  let m4 :=
    if m3.isEmpty then
      let improvement_rate := (dget context "improvement_rate" (Val.vint 0)).asRat
      if improvement_rate > 0 then
        ["📈 Improving by " ++ fmtRat1 improvement_rate ++ "% - that\x27s real growth!"]
      else ["💪 Every study session makes you stronger!"]
    else m3
  if m4.isEmpty then
    ["🌱 Small steps, big changes. You\x27re growing!",
     "💡 Learning is progress. Progress is success.",
     "🔥 Keep the learning fire burning!"].getD (env.celebIdx % 3) ""
  else m4.getD (env.celebIdx % m4.length) ""

/-- A support dict literal of `_provide_support`. -/
def supportDict (ty msg action : String) : Val :=
  Val.vdict [("type", Val.vstr ty), ("message", Val.vstr msg), ("action", Val.vstr action)]

/-- `MotivationAgent._provide_support`. -/
def provideSupport (fatigue_level : ℚ) (emotional_state : String) : List Val :=
  let s1 : List Val :=
    if fatigue_level > 7/10 then
      [supportDict "rest_reminder" "Your body and mind need rest to perform at their best."
        "Consider a short break or earlier bedtime tonight."]
    else []
  let s2 :=
    if fatigue_level > 5/10 then
      s1 ++ [supportDict "energy_boost" "Keep hydrated and fuel your brain with healthy snacks."
        "Drink water and eat something nutritious soon."]
    else s1
  let s3 :=
    if emotional_state = "confused" then
      s2 ++ [supportDict "perspective_shift"
        "Confusion is often a sign you\x27re about to have an \x27aha!\x27 moment."
        "Be patient with yourself - clarity often comes after wrestling with ideas."]
    else s2
  let s4 :=
    if emotional_state = "stressed" then
      s3 ++ [supportDict "stress_relief" "Learning works best when your nervous system is calm."
        "Try box breathing: inhale for 4 counts, hold for 4, exhale for 4."]
    else s3
  let s5 :=
    if emotional_state = "tired" then
      s4 ++ [supportDict "gentle_encouragement"
        "Even tired minds can learn - you\x27re capable of more than you think."
        "If possible, study during your peak energy time tomorrow."]
    else s4
  (s5 ++ [supportDict "self_compassion" "Be kind to yourself on this learning journey."
    "Acknowledge that learning is challenging and you\x27re doing your best."]).take 3

/-- `MotivationAgent._suggest_next_goal` (the goals table with the
`.get(performance_level, goals["good_performance"])` default applied). -/
def suggestNextGoal (env : Env) (context : List (String × Val)) : List (String × Val) :=
  let performance_level := (dget context "performance_level" (Val.vstr "good_performance")).asStr
  let current_topic := (dget context "current_topic" (Val.vstr "your studies")).asStr
  let goal_set : List (String × String × String) :=
    if performance_level = "excellent_performance" then
      [("Master an advanced concept in " ++ current_topic, "this week",
        "A special treat or celebration"),
       ("Help someone else understand a concept you\x27ve mastered", "within 2 days",
        "The satisfaction of teaching")]
    else if performance_level = "needs_improvement" then
      [("Spend focused time on difficult parts of " ++ current_topic, "next study session",
        "Celebrate the effort, regardless of outcome"),
       ("Break down one complex concept into smaller parts", "today",
        "Progress is the real victory")]
    else
      [("Complete one more practice session on " ++ current_topic, "today",
        "Time for something enjoyable"),
       ("Review what you\x27ve learned this week", "tomorrow",
        "A sense of accomplishment")]
  let selected := goal_set.getD (env.goalIdx % goal_set.length) ("", "", "")
  [("goal", Val.vstr selected.1),
   ("timeline", Val.vstr selected.2.1),
   ("reward", Val.vstr selected.2.2),
   ("motivation", Val.vstr "Small goals create big momentum!")]

/-- `MotivationAgent.generate_motivational_response` and the module helper
`get_motivational_support`. -/
def getMotivationalSupport (env : Env) (context : List (String × Val)) :
    List (String × Val) :=
  let performance_level := (dget context "performance_level" (Val.vstr "good_performance")).asStr
  let emotional_state := (dget context "emotional_state" (Val.vstr "neutral")).asStr
  let fatigue_level := (dget context "fatigue_level" (Val.vrat (3/10))).asRat
  [("primary_message", Val.vstr (getPrimaryMessage env performance_level emotional_state)),
   ("affirmation", Val.vstr (affirmations.getD (env.affIdx % 8) "")),
   ("encouragement", Val.vdict (generateEncouragement env performance_level emotional_state)),
   ("progress_celebration", Val.vstr (celebrateProgress env context)),
   ("support_elements", Val.vlist (provideSupport fatigue_level emotional_state)),
   ("next_goal", Val.vdict (suggestNextGoal env context))]

/-! ## Personalization agent (`backend/agents/personalization_agent.py`)

`process_request` computes this handler's output and then never reads it
(the spec's §9 notes the same), so none of the verified properties depend
on it; it is embedded so the orchestrator composition matches the
source. -/

/-- Python dict assignment `d[k] = v`: an existing key keeps its position
(dict keys are unique, so replacing the first occurrence suffices), a new
key is appended. -/
def dset (d : List (String × Val)) (k : String) (v : Val) : List (String × Val) :=
  match d with
  | [] => [(k, v)]
  | (a, b) :: t => if a = k then (k, v) :: t else (a, b) :: dset t k v

/-- `random.uniform(lo, hi)`: an environment-chosen rational clamped into
the interval. -/
def uniformIn (lo hi q : ℚ) : ℚ := min hi (max lo q)

/-- The last `n` elements, Python's `l[-n:]`. -/
def takeLast (n : Nat) (l : List Val) : List Val := l.drop (l.length - n)

/-- `PersonalizationAgent._create_mock_profile` (`random.sample` is
modelled as indexed draws from the pool; distinctness of the sampled
topics is not needed downstream). -/
def createMockProfile (env : Env) (student_id : String) : List (String × Val) :=
  [("student_id", Val.vstr student_id),
   ("learning_style", Val.vstr
     (["visual", "auditory", "kinesthetic", "reading_writing"].getD (env.styleIdx % 4) "visual")),
   ("pace_preference", Val.vstr
     (["fast", "moderate", "slow"].getD (env.paceIdx % 3) "moderate")),
   ("preferred_challenge", Val.vstr
     (["beginner", "intermediate", "advanced"].getD (env.challengeIdx % 3) "intermediate")),
   ("weak_topics", Val.vlist ((List.range 3).map fun i =>
     Val.vstr (["calculus", "linear algebra", "probability", "statistics",
       "algorithms", "data structures", "machine learning", "deep learning"].getD
       (env.weakIdx i % 8) ""))),
   ("strength_topics", Val.vlist ((List.range 2).map fun i =>
     Val.vstr (["programming", "mathematics", "analysis", "problem_solving"].getD
       (env.strengthIdx i % 4) ""))),
   ("study_habits", Val.vdict
     [("preferred_time", Val.vstr
        (["morning", "afternoon", "evening", "night"].getD (env.prefTimeIdx % 4) "morning")),
      ("session_duration", Val.vint (Int.ofNat (30 + env.sessionRand % 91))),
      ("break_frequency", Val.vint (Int.ofNat (45 + env.breakRand % 46)))]),
   ("emotional_factors", Val.vdict
     [("motivation_level", Val.vrat (uniformIn (3/10) (9/10) env.motivLevel)),
      ("confidence_level", Val.vrat (uniformIn (4/10) (8/10) env.confLevel)),
      ("stress_tolerance", Val.vrat (uniformIn (2/10) (8/10) env.stressTol))]),
   ("performance_history", Val.vdict
     [("average_score", Val.vrat (uniformIn 60 95 env.avgScore)),
      ("improvement_rate", Val.vrat (uniformIn (-5) 15 env.improvRate)),
      ("consistency_score", Val.vrat (uniformIn (3/10) (9/10) env.consistScore))])]

/-- `PersonalizationAgent._update_profile_with_performance`. -/
def updateProfileWithPerformance (profile : List (String × Val))
    (past_performance : List Val) : List (String × Val) :=
  if past_performance.isEmpty then profile
  else
    let recent_scores := (takeLast 5 past_performance).map fun p =>
      (dget p.asDict "score" (Val.vint 70)).asRat
    if recent_scores.isEmpty then profile
    else
      let avg_recent := recent_scores.sum / (recent_scores.length : ℚ)
      let ef := dgetDict profile "emotional_factors"
      let conf := (dget ef "confidence_level" Val.vnone).asRat
      let profile1 :=
        if avg_recent > 85 then
          dset profile "emotional_factors"
            (Val.vdict (dset ef "confidence_level" (Val.vrat (min (9/10) (conf + 1/10)))))
        else if avg_recent < 70 then
          dset profile "emotional_factors"
            (Val.vdict (dset ef "confidence_level" (Val.vrat (max (3/10) (conf - 1/10)))))
        else profile
      let pc := (dget profile1 "preferred_challenge" Val.vnone).asStr
      if avg_recent > 90 ∧ pc ≠ "advanced" then
        dset profile1 "preferred_challenge"
          (Val.vstr (if pc = "beginner" then "intermediate" else "advanced"))
      else if avg_recent < 60 ∧ pc ≠ "beginner" then
        dset profile1 "preferred_challenge"
          (Val.vstr (if pc = "advanced" then "intermediate" else "beginner"))
      else profile1

/-- `PersonalizationAgent._adjust_difficulty`
(`difficulty_levels.index(…) if … else 1` as an if-chain). -/
def adjustDifficulty (base_difficulty : String) (profile : List (String × Val))
    (wellness : List (String × Val)) : String :=
  let levels := ["beginner", "intermediate", "advanced"]
  let current_idx : Nat :=
    if base_difficulty = "beginner" then 0
    else if base_difficulty = "intermediate" then 1
    else if base_difficulty = "advanced" then 2
    else 1
  let conf := (dget (dgetDict profile "emotional_factors") "confidence_level" Val.vnone).asRat
  let avg := (dget (dgetDict profile "performance_history") "average_score" Val.vnone).asRat
  let decrease : Nat :=
    (if conf < 1/2 then 1 else 0) +
    (if (dget wellness "fatigue_level" Val.vnone).asRat > 7/10 then 1 else 0) +
    (if (dget wellness "stress_level" Val.vnone).asRat > 6/10 then 1 else 0) +
    (if avg < 70 then 1 else 0)
  let increase : Nat :=
    (if conf > 8/10 then 1 else 0) +
    (if (dget profile "preferred_challenge" Val.vnone).asStr = "advanced" then 1 else 0) +
    (if avg > 85 then 1 else 0)
  if decrease > increase ∧ current_idx > 0 then levels.getD (current_idx - 1) base_difficulty
  else if increase > decrease ∧ current_idx < 2 then levels.getD (current_idx + 1) base_difficulty
  else base_difficulty

/-- The sort key `priority_order.get(x.get("priority", "medium"), 1)` of
`_personalize_resources`. -/
def priorityRank (r : Val) : Nat :=
  let p := (dget r.asDict "priority" (Val.vstr "medium")).asStr
  if p = "high" then 0 else if p = "medium" then 1 else if p = "low" then 2 else 1

/-- Stable insertion (an element goes after every element of equal or
smaller rank), so the fold below models Python's stable `list.sort`. -/
def insertByPriority (x : Val) : List Val → List Val
  | [] => [x]
  | y :: ys =>
    if priorityRank y ≤ priorityRank x then y :: insertByPriority x ys
    else x :: y :: ys

/-- `PersonalizationAgent._personalize_resources`. -/
def personalizeResources (resources : List Val) (profile : List (String × Val)) : List Val :=
  let learning_style := (dget profile "learning_style" Val.vnone).asStr
  let personalized := resources.map fun r =>
    let d := r.asDict
    let ty := pyLower (dget d "type" (Val.vstr "")).asStr
    if learning_style = "visual" then
      if pyIn "video" ty then
        Val.vdict (dset (dset d "priority" (Val.vstr "high")) "reasoning"
          (Val.vstr "Matches your visual learning style"))
      else Val.vdict (dset d "priority" (Val.vstr "medium"))
    else if learning_style = "auditory" then
      if pyIn "video" ty then
        Val.vdict (dset (dset d "priority" (Val.vstr "high")) "reasoning"
          (Val.vstr "Audio-visual content suits your learning style"))
      else Val.vdict (dset d "priority" (Val.vstr "low"))
    else
      if pyIn "article" ty then
        Val.vdict (dset (dset d "priority" (Val.vstr "high")) "reasoning"
          (Val.vstr "Text-based resources match your learning preferences"))
      else Val.vdict (dset d "priority" (Val.vstr "medium"))
  personalized.foldl (fun acc x => insertByPriority x acc) []

/-- `PersonalizationAgent._get_adaptive_elements`. -/
def getAdaptiveElements (profile : List (String × Val)) (wellness : List (String × Val)) :
    List Val :=
  let e1 : List Val :=
    if (dget profile "pace_preference" Val.vnone).asStr = "slow" then
      [Val.vdict [("type", Val.vstr "paced_learning"),
        ("description", Val.vstr "Extended time for concept absorption"),
        ("benefit", Val.vstr "Better understanding through deliberate pacing")]]
    else []
  let e2 :=
    if (dget (dgetDict profile "emotional_factors") "motivation_level" Val.vnone).asRat < 6/10 then
      e1 ++ [Val.vdict [("type", Val.vstr "gamification"),
        ("description", Val.vstr "Achievement badges and progress rewards"),
        ("benefit", Val.vstr "Increased motivation through gamified elements")]]
    else e1
  if (dget wellness "fatigue_level" Val.vnone).asRat > 5/10 then
    e2 ++ [Val.vdict [("type", Val.vstr "micro_learning"),
      ("description", Val.vstr "Short, focused learning bursts"),
      ("benefit", Val.vstr "Reduces cognitive load and maintains focus")]]
  else e2

/-- `PersonalizationAgent._create_adaptive_plan`. -/
def createAdaptivePlan (topic difficulty : String) (resources : List Val)
    (profile : List (String × Val)) (wellness : List (String × Val)) :
    List (String × Val) :=
  let habits := dgetDict profile "study_habits"
  let preferred_time := (dget habits "preferred_time" Val.vnone).asStr
  let optimal_duration := (dget habits "session_duration" Val.vnone).asRat
  let break_freq := dget habits "break_frequency" Val.vnone
  let optimal_duration :=
    if (dget wellness "fatigue_level" Val.vnone).asRat > 6/10 then
      max 30 (optimal_duration * (7/10))
    else if (dget wellness "stress_level" Val.vnone).asRat > 5/10 then
      max 25 (optimal_duration * (8/10))
    else optimal_duration
  [("topic", Val.vstr topic),
   ("difficulty", Val.vstr difficulty),
   ("schedule_preference", Val.vstr preferred_time),
   ("session_structure", Val.vdict
     [("duration_minutes", Val.vint optimal_duration.floor),
      ("break_frequency_minutes", break_freq),
      ("resources_per_session", Val.vint 2)]),
   ("recommended_resources", Val.vlist (resources.take 3)),
   ("adaptive_elements", Val.vlist (getAdaptiveElements profile wellness))]

/-- `PersonalizationAgent._explain_personalization`. -/
def explainPersonalization (profile : List (String × Val)) (wellness : List (String × Val)) :
    String :=
  let learning_style := (dget profile "learning_style" Val.vnone).asStr
  let r1 := ["Prioritized resources matching your " ++ learning_style ++ " learning style"]
  let r2 :=
    if (dget (dgetDict profile "emotional_factors") "confidence_level" Val.vnone).asRat < 6/10 then
      r1 ++ ["Adjusted difficulty downward due to confidence considerations"]
    else r1
  let r3 :=
    if (dget wellness "fatigue_level" Val.vnone).asRat > 6/10 then
      r2 ++ ["Reduced session intensity to accommodate fatigue levels"]
    else r2
  let r4 :=
    if (dget wellness "stress_level" Val.vnone).asRat > 5/10 then
      r3 ++ ["Incorporated stress-management elements in the study plan"]
    else r3
  String.intercalate " | " r4

/-- `PersonalizationAgent.recommend_personalized_path` (its
`fatigue_level`/`stress_level` local reads are unused in the source). -/
def recommendPersonalizedPath (topic : String)
    (learning_resources wellness_assessment student_profile : List (String × Val)) :
    List (String × Val) :=
  let resources := (dget learning_resources "resources" (Val.vlist [])).asList
  let difficulty := (dget learning_resources "difficulty" (Val.vstr "intermediate")).asStr
  let adjusted_difficulty := adjustDifficulty difficulty student_profile wellness_assessment
  let personalized_resources := personalizeResources resources student_profile
  let study_plan := createAdaptivePlan topic adjusted_difficulty personalized_resources
    student_profile wellness_assessment
  [("student_profile", Val.vdict student_profile),
   ("adjusted_difficulty", Val.vstr adjusted_difficulty),
   ("personalized_resources", Val.vlist personalized_resources),
   ("adaptive_study_plan", Val.vdict study_plan),
   ("reasoning", Val.vstr (explainPersonalization student_profile wellness_assessment))]

/-- Module helper `get_personalized_path` (a fresh agent per call, so the
profile cache is always empty and a mock profile is created). -/
def getPersonalizedPath (env : Env) (topic : String)
    (learning_resources wellness_assessment : List (String × Val))
    (student_id : String) (past_performance : List Val) : List (String × Val) :=
  let profile := updateProfileWithPerformance (createMockProfile env student_id) past_performance
  recommendPersonalizedPath topic learning_resources wellness_assessment profile

/-! ## Orchestrator (`backend/orchestrator.py`) -/

/-- Index of the first occurrence of `pat`, Python's `str.find` (as
`Option` — both call sites are guarded by an `in` test). -/
def listFindSub (pat : List Char) : List Char → Option Nat
  | [] => if pat.isEmpty then some 0 else none
  | c :: t =>
    if pat.isPrefixOf (c :: t) then some 0
    else (listFindSub pat t).map (fun n => n + 1)

/-- Python's `s[a:b]` for the non-negative indices used here (an empty
result when `b ≤ a`, as in Python). -/
def pySliceNat (s : String) (a b : Nat) : String :=
  ⟨(s.data.drop a).take (b - a)⟩

/-- `StudentAOrchestrator._extract_topic`. -/
def extractTopic (user_input : String) : String :=
  pyStrip (pyReplace (pyReplace (pyLower user_input)
    "help me prepare for my" "") "help me with" "")

/-- The required top-level keys of every `Response`
(also asserted by `backend/main.py`). -/
def requiredKeys : List String :=
  ["greeting", "study_plan", "learning_resources", "wellness_insights",
   "assessment", "motivational_support", "calendar_events", "metadata"]

/-- The remainder of `StudentAOrchestrator.process_request` after the
wellness call returned a report: invoke the remaining handlers with the
source's literal mock inputs and assemble the fixed-shape response dict.
The result of `get_personalized_path` is computed and (as in the source)
never used.  Note that `study_plan` here is the *wrapper* dict returned
by `get_study_plan`, whose keys are `study_plan` / `calendar_events` /
`google_calendar_result`, so the `.get("sessions", [])` and
`.get("total_duration", "2 hours")` reads fall through to their
defaults. -/
def processRequestResponse (env : Env) (wellness_assessment : List (String × Val))
    (user_input student_id : String) : List (String × Val) :=
  let topic := extractTopic user_input
  let past_performance : List Val :=
    [Val.vdict [("score", Val.vint 75), ("topic", Val.vstr "mathematics"),
       ("date", Val.vstr "2025-01-01")],
     Val.vdict [("score", Val.vint 82), ("topic", Val.vstr "programming"),
       ("date", Val.vstr "2025-01-03")],
     Val.vdict [("score", Val.vint 68), ("topic", Val.vstr "algorithms"),
       ("date", Val.vstr "2025-01-05")]]
  let learning_resources_mock : List (String × Val) :=
    [("resources", Val.vlist [Val.vdict [("title", Val.vstr "Placeholder"),
       ("platform", Val.vstr "Demo")]]),
     ("difficulty", Val.vstr "intermediate"),
     ("estimated_time", Val.vstr "2 hours")]
  let personalized_path := getPersonalizedPath env topic learning_resources_mock
    wellness_assessment student_id past_performance
  let learning_resources := getLearningResources env topic none
  let quiz := generateQuiz env topic learning_resources 3
  let study_plan := getStudyPlan env topic learning_resources (some wellness_assessment)
  let motivation_context : List (String × Val) :=
    [("performance_level", Val.vstr "good_performance"),
     ("emotional_state", dget wellness_assessment "emotional_state" Val.vnone),
     ("fatigue_level", dget wellness_assessment "fatigue_level" Val.vnone),
     ("progress_milestone", Val.vbool true),
     ("current_topic", Val.vstr topic)]
  let motivation := getMotivationalSupport env motivation_context
  let _ := personalized_path
  [("greeting", Val.vstr "Here\x27s your personalized study plan! 📚"),
   ("study_plan", Val.vdict
     [("topic", Val.vstr topic),
      ("duration", dget study_plan "total_duration" (Val.vstr "2 hours")),
      ("difficulty", dget learning_resources "difficulty" (Val.vstr "intermediate")),
      ("sessions", dget study_plan "sessions" (Val.vlist []))]),
   ("learning_resources", Val.vdict
     [("resources", dget learning_resources "resources" (Val.vlist [])),
      ("estimated_time", dget learning_resources "estimated_time" (Val.vstr "2 hours"))]),
   ("wellness_insights", Val.vdict
     [("fatigue_level", dget wellness_assessment "fatigue_level" (Val.vrat (3/10))),
      ("emotional_state", dget wellness_assessment "emotional_state" (Val.vstr "focused")),
      ("recommendations", Val.vlist
        ((dget wellness_assessment "recommendations" (Val.vlist [])).asList.take 2))]),
   ("assessment", Val.vdict
     [("available_quiz", Val.vbool (truthy (dget quiz "questions" Val.vnone))),
      ("question_count",
       Val.vint (Int.ofNat (dget quiz "questions" (Val.vlist [])).asList.length)),
      ("estimated_time", dget quiz "estimated_time" (Val.vstr "3 minutes"))]),
   ("motivational_support", Val.vdict
     [("primary_message", dget motivation "primary_message" (Val.vstr "You\x27ve got this!")),
      ("next_goal", dget (dgetDict motivation "next_goal") "goal"
        (Val.vstr "Complete your first study session"))]),
   ("calendar_events", dget study_plan "calendar_events" (Val.vlist [])),
   ("metadata", Val.vdict
     [("generated_at", Val.vstr "2025-01-07T14:00:00Z"),
      ("session_id", Val.vstr ("session_" ++ student_id ++ "_" ++
        toString (env.pyHash user_input % 10000)))])]

/-- `StudentAOrchestrator.process_request`: the sequential workflow.  It
extracts the topic, calls the wellness handler with the source's literal
mock sensor dicts, and then runs the remaining handlers.  `process_request`
wraps nothing in `try`: when `get_wellness_assessment` raises (its
recommendations phase does whenever the Hume capture produced no data),
the exception propagates out of `process_request` and no response is
produced — the `none` result. -/
def processRequest (env : Env) (user_input student_id : String) :
    Option (List (String × Val)) :=
  let facial_data : FacialData :=
    { emotion := some "focused", fatigue_indicators := [], stress_indicators := [] }
  let activity_data : ActivityData :=
    { steps_today := some 8500, active_minutes := some 75, calories_burned := some 2100,
      heart_rate_variability := none, last_activity := none }
  (getWellnessAssessment env (some facial_data) (some activity_data)).map
    fun wellness_assessment =>
      processRequestResponse env wellness_assessment user_input student_id

/-- `OrchestratorState` (the LangGraph state `TypedDict`). -/
structure OState where
  user_input : String
  topic : String
  student_id : String
  conversation_history : List Val
  current_step : String
  agent_outputs : List (String × Val)
  final_response : List (String × Val)
  metadata : List (String × Val)

def pdfStartMarker : String := "[UPLOADED_BOOK_CONTENT]"

def pdfEndMarker : String := "[/UPLOADED_BOOK_CONTENT]"

/-- The document-block extraction prelude of `_analyze_user_input`:
returns the text used for analysis, the `has_pdf` flag and the extracted
document content. -/
def analyzeInputText (user_input : String) : String × Bool × Option String :=
  if pyIn pdfStartMarker user_input ∧ pyIn pdfEndMarker user_input then
    let start_idx := ((listFindSub pdfStartMarker.data user_input.data).getD 0)
      + pdfStartMarker.length
    let end_idx := (listFindSub pdfEndMarker.data user_input.data).getD 0
    let pdf_content := pyStrip (pySliceNat user_input start_idx end_idx)
    let removed := pySliceNat user_input (start_idx - pdfStartMarker.length)
      (end_idx + pdfEndMarker.length)
    (pyStrip (pyReplace user_input removed ""), true, some pdf_content)
  else (user_input, false, none)

/-- The rule-based fallback analysis built in `_analyze_user_input`'s
`except` branch (note the *case-sensitive* filler phrases, unlike
`_extract_topic`). -/
def fallbackAnalysis (user_input : String) (has_pdf : Bool) : List (String × Val) :=
  [("topic", Val.vstr (pyStrip (pyReplace (pyReplace user_input
     "Help me prepare for my" "") "Help me with" ""))),
   ("intent", Val.vstr "study_planning"),
   ("complexity", Val.vstr "moderate"),
   ("has_time_constraint", Val.vbool false),
   ("needs_personalization", Val.vbool true),
   ("has_uploaded_content", Val.vbool has_pdf)]

/-- `StudentAOrchestrator._analyze_user_input`.  `env.analysisResult` is
the parsed JSON object of a successful classification call; `none` is any
failure the bare `except` absorbs (service error, empty response, fenced
or unparseable output), which yields `fallbackAnalysis`.  (A successful
parse to a non-object JSON value would escape the guard at the subsequent
`analysis.get` in the source; the required output shape is an object, so
only object results are modelled as successes.) -/
def analyzeUserInput (env : Env) (state : OState) : OState :=
  let parts := analyzeInputText state.user_input
  let user_input := parts.1
  let has_pdf := parts.2.1
  let pdf_content := parts.2.2
  let analysis :=
    match env.analysisResult with
    | some a => a
    | none => fallbackAnalysis user_input has_pdf
  let metadata1 := dset (dset state.metadata "analysis" (Val.vdict analysis))
    "has_pdf" (Val.vbool has_pdf)
  let updated :=
    match pdf_content with
    | some pc =>
      if has_pdf ∧ ¬ pc.isEmpty then
        (dset metadata1 "pdf_content_preview"
          (Val.vstr (if pc.length > 1000 then pySliceNat pc 0 1000 ++ "..." else pc)),
         dset state.agent_outputs "pdf_content" (Val.vstr pc))
      else (metadata1, state.agent_outputs)
    | none => (metadata1, state.agent_outputs)
  { state with
    topic := (dget analysis "topic" (Val.vstr "general studies")).asStr,
    metadata := updated.1,
    agent_outputs := updated.2 }

/-- `StudentAOrchestrator._route_to_agents`. -/
def routeToAgents (state : OState) : String :=
  let analysis := dgetDict state.metadata "analysis"
  let intent := dget analysis "intent" (Val.vstr "study_planning")
  let needs_personalization := dget analysis "needs_personalization" (Val.vbool true)
  if truthy needs_personalization ∧
      pyInList intent ["study_planning", "comprehensive_study"] then
    "comprehensive_study"
  else if pyEq intent (Val.vstr "resource_finding") then "learning_focused"
  else "personalization_first"

/-- The static edges added in `_build_graph` (after the conditional
routing edge out of `analyze_input`). -/
def graphEdges : List (String × String) :=
  [("personalization_agent", "learning_agent"),
   ("personalization_agent", "wellness_agent"),
   ("learning_agent", "assessment_agent"),
   ("wellness_agent", "schedule_agent"),
   ("assessment_agent", "motivation_agent"),
   ("schedule_agent", "motivation_agent"),
   ("motivation_agent", "coordinate_response")]

/-- The conditional-edge table of `_build_graph`: routing label → entry
node. -/
def routeEntryNode (label : String) : Option String :=
  List.lookup label
    [("personalization_first", "personalization_agent"),
     ("learning_focused", "learning_agent"),
     ("comprehensive_study", "personalization_agent")]

def successors (n : String) : List String :=
  (graphEdges.filter fun e => e.1 = n).map Prod.snd

def reachAux : Nat → List String → List String → List String
  | 0, visited, _ => visited
  | Nat.succ fuel, visited, frontier =>
    match frontier with
    | [] => visited
    | n :: rest =>
      if visited.contains n then reachAux fuel visited rest
      else reachAux fuel (visited ++ [n]) (rest ++ successors n)

/-- The nodes that execute downstream of the router when it enters the
fixed graph at `entry`: the reachability closure along `graphEdges`. -/
def activeNodes (entry : String) : List String := reachAux 64 [] [entry]

/-- All the graph's nodes downstream of the router (every handler node
plus the terminal aggregation node). -/
def allAgentNodes : List String :=
  ["personalization_agent", "learning_agent", "wellness_agent",
   "assessment_agent", "schedule_agent", "motivation_agent", "coordinate_response"]

/-- The response dict built by `_coordinate_final_response` from the
collected `agent_outputs` (reading `state["topic"]` and
`state["metadata"]["session_id"]` but never `state["final_response"]`). -/
def buildFinalResponse (state : OState) : List (String × Val) :=
  let agent_outputs := state.agent_outputs
  let study_plan := dgetDict (dgetDict agent_outputs "schedule") "study_plan"
  let learning_resources := dgetDict agent_outputs "learning"
  let wellness_info := dgetDict agent_outputs "wellness"
  let quiz := dgetDict agent_outputs "assessment"
  let motivation := dgetDict agent_outputs "motivation"
  [("greeting", Val.vstr "Here\x27s your personalized study plan! 📚"),
   ("study_plan", Val.vdict
     [("topic", dget study_plan "topic" (Val.vstr state.topic)),
      ("duration", dget study_plan "total_duration" (Val.vstr "2 hours")),
      ("difficulty", dget study_plan "difficulty" (Val.vstr "intermediate")),
      ("sessions", dget study_plan "sessions" (Val.vlist []))]),
   ("learning_resources", Val.vdict
     [("resources", dget learning_resources "resources" (Val.vlist [])),
      ("estimated_time", dget learning_resources "estimated_time" (Val.vstr "2 hours"))]),
   ("wellness_insights", Val.vdict
     [("fatigue_level", dget wellness_info "fatigue_level" (Val.vrat (3/10))),
      ("emotional_state", dget wellness_info "emotional_state" (Val.vstr "focused")),
      ("recommendations", Val.vlist
        ((dget wellness_info "recommendations" (Val.vlist [])).asList.take 2))]),
   ("assessment", Val.vdict
     [("available_quiz", Val.vbool (truthy (dget quiz "questions" Val.vnone))),
      ("question_count",
       Val.vint (Int.ofNat (dget quiz "questions" (Val.vlist [])).asList.length)),
      ("estimated_time", dget quiz "estimated_time" (Val.vstr "3 minutes"))]),
   ("motivational_support", Val.vdict
     [("primary_message", dget motivation "primary_message" (Val.vstr "You\x27ve got this!")),
      ("next_goal", dget (dgetDict motivation "next_goal") "goal"
        (Val.vstr "Complete your first study session"))]),
   ("calendar_events", dget (dgetDict agent_outputs "schedule") "calendar_events" (Val.vlist [])),
   ("metadata", Val.vdict
     [("generated_at", Val.vstr "2025-01-07T14:00:00Z"),
      ("session_id", dget state.metadata "session_id" Val.vnone)])]

/-- `StudentAOrchestrator._coordinate_final_response`: write the built
response into `state["final_response"]` and return the state. -/
def coordinateFinalResponse (state : OState) : OState :=
  { state with final_response := buildFinalResponse state }

/-! ## Concrete instances used to witness the theorems -/

/-- A concrete environment: every external call fails (all `Option`
fields are `none`), the clock reads noon, and every random draw is the
first element. -/
def env0 : Env :=
  { currentHour := 12, humeResult := none, emoIdx := 0,
    simSteps := 0, simActiveMinutes := 0, simCalories := 0, simActIdx := 0,
    learningGathered := none, pdfTopic := "", pdfAnalysisVal := Val.vnone,
    quizAsyncOk := false,
    qRand := fun _ => 0, qTypeIdx := fun _ => 0, qConceptIdx := fun _ => 0,
    qGemini := fun _ => none,
    basicQid := fun _ => 0, basicTypeIdx := fun _ => 0, basicConceptIdx := fun _ => 0,
    day0 := 0, fmtDate := fun _ => "2025-01-07",
    calcEnd := fun _ _ _ => "", calcEndFromDt := fun _ _ => "",
    styleIdx := 0, paceIdx := 0, challengeIdx := 0, prefTimeIdx := 0,
    sessionRand := 0, breakRand := 0, weakIdx := fun _ => 0, strengthIdx := fun _ => 0,
    motivLevel := 1/2, confLevel := 1/2, stressTol := 1/2, avgScore := 70,
    improvRate := 0, consistScore := 1/2,
    affIdx := 0, primMsgIdx := 0, longTermIdx := 0, actionIdx := 0,
    celebIdx := 0, goalIdx := 0,
    analysisResult := none, pyHash := fun _ => 0 }

/-- `env0` with a successful Hume emotion capture, so the wellness
recommendations phase does not crash and a response is produced. -/
def envHume : Env :=
  { env0 with humeResult := some { emotion := "neutral", confidence := 1/2 } }

/-- An orchestrator state whose analysis carries an intent value none of
the router's branches recognize. -/
def unrecognizedIntentState : OState :=
  { user_input := "quiz me on graph theory", topic := "", student_id := "demo_student",
    conversation_history := [], current_step := "", agent_outputs := [],
    final_response := [],
    metadata := [("analysis", Val.vdict
      [("intent", Val.vstr "quiz_me"),
       ("needs_personalization", Val.vbool true)])] }

/-- A plain request state for exercising the analyzer fallback. -/
def algebraRequestState : OState :=
  { user_input := "Help me with algebra", topic := "", student_id := "demo_student",
    conversation_history := [], current_step := "", agent_outputs := [],
    final_response := [], metadata := [] }

/-! ## Helper lemmas -/

theorem lookup_cons (k a : String) (v : Val) (t : List (String × Val)) :
    List.lookup k ((a, v) :: t) = if k = a then some v else List.lookup k t := by
  by_cases h : k = a
  · subst h
    simp [List.lookup]
  · have hb : (k == a) = false := by simp [h]
    simp [List.lookup, hb, h]

theorem lookup_dset_self (d : List (String × Val)) (k : String) (v : Val) :
    List.lookup k (dset d k v) = some v := by
  induction d with
  | nil =>
    rw [dset, lookup_cons, if_pos rfl]
  | cons p t ih =>
    obtain ⟨a, b⟩ := p
    rw [dset]
    by_cases ha : a = k
    · rw [if_pos ha, lookup_cons, if_pos rfl]
    · rw [if_neg ha, lookup_cons, if_neg (fun h => ha h.symm)]
      exact ih

theorem lookup_dset_ne (d : List (String × Val)) (k k' : String) (v : Val)
    (hk : k ≠ k') :
    List.lookup k (dset d k' v) = List.lookup k d := by
  induction d with
  | nil =>
    rw [dset, lookup_cons, if_neg hk]
  | cons p t ih =>
    obtain ⟨a, b⟩ := p
    rw [dset]
    by_cases ha : a = k'
    · rw [if_pos ha, lookup_cons, if_neg hk, lookup_cons,
        if_neg (fun h : k = a => hk (h.trans ha))]
    · rw [if_neg ha, lookup_cons, lookup_cons]
      by_cases hka : k = a
      · rw [if_pos hka, if_pos hka]
      · rw [if_neg hka, if_neg hka]
        exact ih

theorem createSessions_length (env : Env) (topic : String) (resources : List Val)
    (total_hours : ℚ) (difficulty : String) :
    1 ≤ (createSessions env topic resources total_hours difficulty).length := by
  unfold createSessions
  simp only [List.length_map, List.length_range]
  exact le_max_left 1 _

theorem addWellnessBreaks_length (sessions : List Val) (wd : List (String × Val)) :
    (addWellnessBreaks sessions wd).length = sessions.length := by
  unfold addWellnessBreaks
  simp

theorem studyPlanSessions_length (env : Env) (topic : String)
    (learning_data : List (String × Val)) (wellness_data : Option (List (String × Val))) :
    1 ≤ (studyPlanSessions env topic learning_data wellness_data).length := by
  cases wellness_data with
  | none =>
    simp only [studyPlanSessions]
    exact createSessions_length ..
  | some wd =>
    simp only [studyPlanSessions]
    split
    · rw [addWellnessBreaks_length]
      exact createSessions_length ..
    · exact createSessions_length ..

theorem pyInList_cons_false (v : Val) (s : String) (l : List String)
    (h : pyInList v (s :: l) = false) :
    pyEq v (Val.vstr s) = false ∧ pyInList v l = false := by
  cases v with
  | vstr a =>
    simp only [pyInList, strInList, Bool.or_eq_false_iff] at h
    exact ⟨h.1, h.2⟩
  | vrat q => exact ⟨rfl, rfl⟩
  | vint n => exact ⟨rfl, rfl⟩
  | vbool b => exact ⟨rfl, rfl⟩
  | vlist l2 => exact ⟨rfl, rfl⟩
  | vdict d2 => exact ⟨rfl, rfl⟩
  | vnone => exact ⟨rfl, rfl⟩

/-! ## Claim theorems -/

/-- C1: the claim fails on the code.  In every environment where the Hume
emotion capture produced no data (`env.humeResult = none` — the default
deployment: no Hume client or no cv2, or a caught capture failure), the
wellness handler's recommendations phase raises `AttributeError`
(`None.get("confidence", 0)`), the error propagates uncaught out of
`process_request`, and no response is produced; whenever the capture did
produce data, the response carries exactly the eight required keys.  Both
halves in one equation: the produced key list is `some requiredKeys`
exactly on the environments where Hume data exists, and `none` (a crash,
not an eight-key response) otherwise. -/
theorem c1_wellness_crash_or_required_keys (env : Env) (user_input student_id : String) :
    (processRequest env user_input student_id).map (List.map Prod.fst)
      = env.humeResult.map fun _ => requiredKeys := by
  cases hh : env.humeResult with
  | none =>
    simp only [processRequest, getWellnessAssessment, generateRecommendations, hh,
      Option.map_none']
  | some hd =>
    simp only [processRequest, getWellnessAssessment, generateRecommendations, hh,
      Option.map_some']
    rfl

/-- C5: The final response-coordination step is idempotent and
deterministic over the execution state: applying
`_coordinate_final_response` twice to the same collected agent outputs
yields the same state, and in particular the identical `final_response`
object. -/
theorem c5_aggregation_idempotent (state : OState) :
    coordinateFinalResponse (coordinateFinalResponse state) = coordinateFinalResponse state ∧
    (coordinateFinalResponse (coordinateFinalResponse state)).final_response =
      (coordinateFinalResponse state).final_response :=
  ⟨rfl, rfl⟩

/-- C6: On the request `"Help me prepare for my Machine Learning exam"`,
`_extract_topic` lowers the text, removes the filler phrase and trims to
`"machine learning exam"`, and every response `process_request` produces
on that request has `study_plan.topic` equal to exactly that string (for
every environment and student id). -/
theorem c6_scenario_a_topic_extraction (env : Env) (student_id : String) :
    extractTopic "Help me prepare for my Machine Learning exam" = "machine learning exam" ∧
    ∀ r, processRequest env "Help me prepare for my Machine Learning exam" student_id
        = some r →
      dget (Val.asDict (dget r "study_plan" Val.vnone)) "topic" Val.vnone =
        Val.vstr "machine learning exam" := by
  have h : extractTopic "Help me prepare for my Machine Learning exam"
      = "machine learning exam" := by decide
  refine ⟨h, ?_⟩
  intro r hr
  simp only [processRequest] at hr
  rw [Option.map_eq_some'] at hr
  obtain ⟨w, _, hw⟩ := hr
  subst hw
  have h2 : dget (Val.asDict (dget (processRequestResponse env w
      "Help me prepare for my Machine Learning exam" student_id) "study_plan" Val.vnone))
      "topic" Val.vnone
      = Val.vstr (extractTopic "Help me prepare for my Machine Learning exam") := rfl
  rw [h2, h]

/-- C6 (witness): the theorem applied in the non-crashing environment,
whose produced response has `study_plan.topic = "machine learning exam"`. -/
theorem c6_scenario_a_topic_witness :
    dget (Val.asDict (dget ((processRequest envHume
      "Help me prepare for my Machine Learning exam" "demo_student").getD [])
      "study_plan" Val.vnone)) "topic" Val.vnone = Val.vstr "machine learning exam" :=
  (c6_scenario_a_topic_extraction envHume "demo_student").2 _ rfl

/-- C3: Every response `process_request` produces on the request
`"Help me prepare for my Machine Learning exam"` has an *empty*
`study_plan.sessions` list (for every environment and student id),
contrary to Scenario A: `process_request` reads `.get("sessions", [])` on
the wrapper dict returned by `get_study_plan` (whose keys are
`study_plan`/`calendar_events`/`google_calendar_result`), so the lookup
falls through to the `[]` default, although the schedule handler's nested
`study_plan.sessions` list always holds at least one session (second
conjunct, for every topic, resource bundle and wellness bundle). -/
theorem c3_response_sessions_empty_despite_nonempty_plan (env : Env)
    (student_id topic : String) (learning_data : List (String × Val))
    (wellness_data : Option (List (String × Val))) :
    (∀ r, processRequest env "Help me prepare for my Machine Learning exam" student_id
        = some r →
      dget (Val.asDict (dget r "study_plan" Val.vnone)) "sessions" Val.vnone
        = Val.vlist []) ∧
    1 ≤ (dget (dgetDict (getStudyPlan env topic learning_data wellness_data)
        "study_plan") "sessions" Val.vnone).asList.length := by
  constructor
  · intro r hr
    simp only [processRequest] at hr
    rw [Option.map_eq_some'] at hr
    obtain ⟨w, _, hw⟩ := hr
    subst hw
    rfl
  · have h : (dget (dgetDict (getStudyPlan env topic learning_data wellness_data)
        "study_plan") "sessions" Val.vnone).asList
        = studyPlanSessions env topic learning_data wellness_data := rfl
    rw [h]
    exact studyPlanSessions_length ..

/-- C3 (witness): the theorem applied in the non-crashing environment:
the concretely produced Scenario A response has `sessions = []` while the
schedule handler's nested list is non-empty. -/
theorem c3_sessions_witness :
    dget (Val.asDict (dget ((processRequest envHume
      "Help me prepare for my Machine Learning exam" "demo_student").getD [])
      "study_plan" Val.vnone)) "sessions" Val.vnone = Val.vlist [] ∧
    1 ≤ (dget (dgetDict (getStudyPlan envHume "machine learning exam" [] none)
        "study_plan") "sessions" Val.vnone).asList.length := by
  obtain ⟨h1, h2⟩ := c3_response_sessions_empty_despite_nonempty_plan envHume
    "demo_student" "machine learning exam" [] none
  exact ⟨h1 _ rfl, h2⟩

theorem clamp01_nonneg (q : ℚ) : 0 ≤ clamp01 q :=
  le_min zero_le_one (le_max_left 0 q)

theorem clamp01_le_one (q : ℚ) : clamp01 q ≤ 1 :=
  min_le_left 1 _

/-- C7: For every environment (any time of day, any emotion-analysis
outcome) and every combination of facial and activity inputs, the
computed fatigue and stress levels are rationals in the interval
`[0, 1]`, and every wellness report the handler returns carries exactly
those values in its `fatigue_level`/`stress_level` fields (the levels are
computed before, and are unaffected by, the recommendations-phase
crash). -/
theorem c7_wellness_levels_in_unit_interval (env : Env)
    (facial_data : Option FacialData) (activity_data : Option ActivityData) :
    (0 ≤ calculateFatigue env.currentHour facial_data activity_data env.humeResult ∧
      calculateFatigue env.currentHour facial_data activity_data env.humeResult ≤ 1) ∧
    (0 ≤ calculateStress facial_data activity_data env.humeResult ∧
      calculateStress facial_data activity_data env.humeResult ≤ 1) ∧
    ∀ w, getWellnessAssessment env facial_data activity_data = some w →
      dget w "fatigue_level" Val.vnone
        = Val.vrat (calculateFatigue env.currentHour facial_data activity_data env.humeResult) ∧
      dget w "stress_level" Val.vnone
        = Val.vrat (calculateStress facial_data activity_data env.humeResult) := by
  refine ⟨⟨clamp01_nonneg _, clamp01_le_one _⟩, ⟨clamp01_nonneg _, clamp01_le_one _⟩, ?_⟩
  intro w hw
  simp only [getWellnessAssessment] at hw
  rw [Option.map_eq_some'] at hw
  obtain ⟨recs, _, hr⟩ := hw
  subst hr
  exact ⟨rfl, rfl⟩

/-- C7 (witness): the report returned in the non-crashing environment
carries the computed (clamped) levels. -/
theorem c7_wellness_levels_witness :
    dget ((getWellnessAssessment envHume none none).getD []) "fatigue_level" Val.vnone
      = Val.vrat (calculateFatigue envHume.currentHour none none envHume.humeResult) ∧
    dget ((getWellnessAssessment envHume none none).getD []) "stress_level" Val.vnone
      = Val.vrat (calculateStress none none envHume.humeResult) :=
  (c7_wellness_levels_in_unit_interval envHume none none).2.2 _ rfl

/-- C2 (counterexample): on an analysis whose intent is the unrecognized
value `"quiz_me"`, the router returns the `"personalization_first"`
label, not the `"comprehensive_study"` (comprehensive) policy the claim
asserts. -/
theorem c2_counterexample_route_label :
    routeToAgents unrecognizedIntentState = "personalization_first" ∧
    "personalization_first" ≠ "comprehensive_study" := by
  refine ⟨?_, by decide⟩
  rfl

theorem pyInList_two_eq_or (v : Val) (s1 s2 : String) :
    pyInList v [s1, s2] = (pyEq v (Val.vstr s1) || pyEq v (Val.vstr s2)) := by
  cases v <;> simp [pyInList, strInList, pyEq]

/-- C2 (amended): whenever the analysis intent is none of the values the
router recognizes (`study_planning`, `comprehensive_study`,
`resource_finding`), the router returns the `personalization_first`
label — not the `comprehensive_study` label — and that label's entry node
is the personalization agent, from which every node of the fixed graph is
reachable, so all nodes are active for the request, exactly as under the
comprehensive policy. -/
theorem c2_unrecognized_intent_activates_all_nodes (state : OState)
    (h : pyInList (dget (dgetDict state.metadata "analysis") "intent"
      (Val.vstr "study_planning"))
      ["study_planning", "comprehensive_study", "resource_finding"] = false) :
    routeToAgents state = "personalization_first" ∧
    (routeEntryNode (routeToAgents state)).map activeNodes = some allAgentNodes := by
  obtain ⟨h1, h23⟩ := pyInList_cons_false _ _ _ h
  obtain ⟨h2, h34⟩ := pyInList_cons_false _ _ _ h23
  obtain ⟨h3, _⟩ := pyInList_cons_false _ _ _ h34
  have hin : pyInList (dget (dgetDict state.metadata "analysis") "intent"
      (Val.vstr "study_planning")) ["study_planning", "comprehensive_study"] = false := by
    rw [pyInList_two_eq_or, h1, h2]
    rfl
  have hroute : routeToAgents state = "personalization_first" := by
    simp only [routeToAgents]
    rw [if_neg, if_neg]
    · intro hc
      rw [h3] at hc
      exact Bool.false_ne_true hc
    · intro hc
      rw [hin] at hc
      exact Bool.false_ne_true hc.2
  refine ⟨hroute, ?_⟩
  rw [hroute]
  rfl

/-- C2 (witness): the amended theorem applied to the concrete state whose
intent is `"quiz_me"`. -/
theorem c2_unrecognized_intent_witness :
    routeToAgents unrecognizedIntentState = "personalization_first" ∧
    (routeEntryNode (routeToAgents unrecognizedIntentState)).map activeNodes
      = some allAgentNodes :=
  c2_unrecognized_intent_activates_all_nodes unrecognizedIntentState rfl

/-- C4 (counterexample): on the request text `"Help me prepare for my"`
(which consists of exactly one filler phrase), the heuristic fallback
topic is the empty string, so the fallback topic is not a non-empty
string for every request text. -/
theorem c4_counterexample_fallback_topic_empty :
    dget (fallbackAnalysis "Help me prepare for my" false) "topic" Val.vnone
      = Val.vstr "" := by
  have h : pyStrip (pyReplace (pyReplace "Help me prepare for my"
      "Help me prepare for my" "") "Help me with" "") = "" := by decide
  calc dget (fallbackAnalysis "Help me prepare for my" false) "topic" Val.vnone
      = Val.vstr (pyStrip (pyReplace (pyReplace "Help me prepare for my"
          "Help me prepare for my" "") "Help me with" "")) := rfl
    _ = Val.vstr "" := by rw [h]

/-- C4 (amended): whenever the classification call fails (any absorbed
failure: service error, empty response, non-JSON output), the analyzer —
a total function — stores exactly the rule-based fallback analysis, whose
intent is `"study_planning"`, complexity is `"moderate"`, and topic is
the raw input with the filler phrases removed and whitespace stripped;
the fallback topic is non-empty for every request text whose
filler-stripped remainder is non-empty (it is empty when the text
consists only of filler and whitespace, e.g. exactly
`"Help me prepare for my"`, an input §7 already deems malformed). -/
theorem c4_analyzer_fallback_on_failure (env : Env) (state : OState)
    (hfail : env.analysisResult = none)
    (hnopdf : pyIn pdfStartMarker state.user_input = false)
    (hne : pyStrip (pyReplace (pyReplace state.user_input
      "Help me prepare for my" "") "Help me with" "") ≠ "") :
    dgetDict (analyzeUserInput env state).metadata "analysis"
      = fallbackAnalysis state.user_input false ∧
    dget (fallbackAnalysis state.user_input false) "intent" Val.vnone
      = Val.vstr "study_planning" ∧
    dget (fallbackAnalysis state.user_input false) "complexity" Val.vnone
      = Val.vstr "moderate" ∧
    dget (fallbackAnalysis state.user_input false) "topic" Val.vnone
      = Val.vstr (pyStrip (pyReplace (pyReplace state.user_input
          "Help me prepare for my" "") "Help me with" "")) ∧
    dget (fallbackAnalysis state.user_input false) "topic" Val.vnone ≠ Val.vstr "" := by
  have htext : analyzeInputText state.user_input = (state.user_input, false, none) := by
    unfold analyzeInputText
    rw [if_neg]
    intro hc
    rw [hnopdf] at hc
    exact Bool.false_ne_true hc.1
  refine ⟨?_, rfl, rfl, rfl, ?_⟩
  · simp only [analyzeUserInput, htext, hfail]
    unfold dgetDict dget
    rw [lookup_dset_ne _ "analysis" "has_pdf" _ (by decide), lookup_dset_self]
  · intro hc
    apply hne
    have h4 : dget (fallbackAnalysis state.user_input false) "topic" Val.vnone
        = Val.vstr (pyStrip (pyReplace (pyReplace state.user_input
          "Help me prepare for my" "") "Help me with" "")) := rfl
    rw [h4] at hc
    exact Val.vstr.inj hc

/-- C4 (witness): the amended theorem applied to the failing environment
and the request `"Help me with algebra"`, whose fallback topic
`"algebra"` is non-empty. -/
theorem c4_analyzer_fallback_witness :
    dgetDict (analyzeUserInput env0 algebraRequestState).metadata "analysis"
      = fallbackAnalysis "Help me with algebra" false ∧
    dget (fallbackAnalysis "Help me with algebra" false) "intent" Val.vnone
      = Val.vstr "study_planning" ∧
    dget (fallbackAnalysis "Help me with algebra" false) "complexity" Val.vnone
      = Val.vstr "moderate" ∧
    dget (fallbackAnalysis "Help me with algebra" false) "topic" Val.vnone
      = Val.vstr (pyStrip (pyReplace (pyReplace "Help me with algebra"
          "Help me prepare for my" "") "Help me with" "")) ∧
    dget (fallbackAnalysis "Help me with algebra" false) "topic" Val.vnone ≠ Val.vstr "" :=
  c4_analyzer_fallback_on_failure env0 algebraRequestState rfl (by decide) (by decide)

/-- C9: for every environment, topic, resource bundle and requested count
`n ≥ 1`, the basic fallback quiz has exactly `n` questions and estimated
time `"(2 n) minutes"`; consequently, in an environment where every
external generative call fails (the async quiz path and the resource
search), every response `process_request` produces has
`assessment.question_count` equal to 3 (the count it passes), hence at
least 1. -/
theorem c9_basic_quiz_question_count (env : Env) (topic : String)
    (learning_data : List (String × Val)) (num_questions : Nat) (hn : 1 ≤ num_questions)
    (env2 : Env) (user_input student_id : String)
    (hasync : env2.quizAsyncOk = false) (hlearn : env2.learningGathered = none) :
    (dget (generateBasicQuiz env topic learning_data num_questions) "questions"
      Val.vnone).asList.length = num_questions ∧
    dget (generateBasicQuiz env topic learning_data num_questions) "estimated_time" Val.vnone
      = Val.vstr (toString (num_questions * 2) ++ " minutes") ∧
    ∀ r, processRequest env2 user_input student_id = some r →
      dget (Val.asDict (dget r "assessment" Val.vnone)) "question_count" Val.vnone
        = Val.vint 3 := by
  refine ⟨?_, rfl, ?_⟩
  · have h : (dget (generateBasicQuiz env topic learning_data num_questions) "questions"
        Val.vnone).asList
        = (List.range num_questions).map (basicQuizQuestion env topic
          (extractConcepts (dget learning_data "resources" (Val.vlist [])).asList topic)
          (dget learning_data "difficulty" (Val.vstr "intermediate")).asStr) := rfl
    rw [h]
    simp
  · intro r hr
    simp only [processRequest] at hr
    rw [Option.map_eq_some'] at hr
    obtain ⟨w, _, hw⟩ := hr
    subst hw
    have h3 : dget (Val.asDict (dget (processRequestResponse env2 w user_input student_id)
        "assessment" Val.vnone)) "question_count" Val.vnone
        = Val.vint (Int.ofNat (dget (generateQuiz env2 (extractTopic user_input)
            (getLearningResources env2 (extractTopic user_input) none) 3) "questions"
            (Val.vlist [])).asList.length) := rfl
    rw [h3]
    have hq : generateQuiz env2 (extractTopic user_input)
        (getLearningResources env2 (extractTopic user_input) none) 3
        = generateBasicQuiz env2 (extractTopic user_input)
          (getLearningResources env2 (extractTopic user_input) none) 3 := by
      unfold generateQuiz
      rw [hasync]
      simp
    rw [hq]
    have h4 : (dget (generateBasicQuiz env2 (extractTopic user_input)
        (getLearningResources env2 (extractTopic user_input) none) 3) "questions"
        (Val.vlist [])).asList
        = (List.range 3).map (basicQuizQuestion env2 (extractTopic user_input)
          (extractConcepts (dget (getLearningResources env2 (extractTopic user_input) none)
            "resources" (Val.vlist [])).asList (extractTopic user_input))
          (dget (getLearningResources env2 (extractTopic user_input) none) "difficulty"
            (Val.vstr "intermediate")).asStr) := rfl
    rw [h4]
    simp

/-- C9 (witness): the theorem applied at `n = 3` with the Scenario A
request in the environment where the generative calls fail but the Hume
capture produced data (so a response exists). -/
theorem c9_basic_quiz_witness :
    (dget (generateBasicQuiz env0 "machine learning exam" [] 3) "questions"
      Val.vnone).asList.length = 3 ∧
    dget (generateBasicQuiz env0 "machine learning exam" [] 3) "estimated_time" Val.vnone
      = Val.vstr (toString (3 * 2) ++ " minutes") ∧
    dget (Val.asDict (dget ((processRequest envHume
      "Help me prepare for my Machine Learning exam" "demo_student").getD [])
      "assessment" Val.vnone)) "question_count" Val.vnone = Val.vint 3 := by
  obtain ⟨h1, h2, h3⟩ := c9_basic_quiz_question_count env0 "machine learning exam" [] 3
    (by decide) envHume "Help me prepare for my Machine Learning exam" "demo_student" rfl rfl
  exact ⟨h1, h2, h3 _ rfl⟩

end StudyAssistant
